import Mathlib

/-!
Shallow embedding of the distributed AI coordination core of
`src/bash-5.2/ai_core/distributed_ai.c`.

Modelling conventions:
* C strings (fixed-size `char` arrays holding NUL-terminated text) are
  `List Char`; `strncpy(dst, src, n)` with a zeroed destination is
  `List.take n`, and the `snprintf` bound `n` is `List.take (n-1)`.
* `time_t` timestamps and C `int` values are `Int` (`Nat` where the C
  value is only ever zero-initialised and incremented).
* The fixed arrays `agents[10]`/`active_tasks[100]` plus their counters
  `agent_count`/`task_count` are Lean lists holding the first
  `agent_count`/`task_count` rows; the remaining all-zero slots of the
  calloc-ed arrays are not represented (rows are only ever appended).
* Omitted struct fields: thread/socket handles (`comm_thread`,
  `socket_fd`, mutexes, `display`, `running`), transport addressing
  (`hostname`, `ip_address`) and the float telemetry (`cpu_load`,
  `memory_usage`) - no modelled code path ever writes them after their
  zero initialisation and no claim reads them.
* Functions that call `time(NULL)` or `uuid_generate` take the current
  time / fresh uuid string as an explicit parameter.
* State-mutating handlers return the new state together with the list of
  wire messages actually passed to `send_message_to_agent`; in
  `handle_message` no branch calls it, so that list is always empty
  (responses are built into locals and dropped, see the TODOs at
  distributed_ai.c:295 and distributed_ai.c:346).
-/

abbrev Chars := List Char

/-- Message type constants, mirroring `message_type_t` (values 1..10). -/
def MSG_TYPE_DISCOVERY : Int := 1

def MSG_TYPE_HANDSHAKE : Int := 2

def MSG_TYPE_TASK_REQUEST : Int := 3

def MSG_TYPE_TASK_RESPONSE : Int := 4

def MSG_TYPE_STATUS_UPDATE : Int := 5

def MSG_TYPE_HEARTBEAT : Int := 6

/-- Agent status, mirroring `agent_status_t` (calloc zero-init gives `offline`). -/
inductive AgentStatus where
  | offline
  | discovering
  | connecting
  | online
  | busy
  | error
deriving DecidableEq, Repr

/-- Wire message, mirroring `ai_message_t`.  The `type` field is an `Int`
because `parse_message` stores an arbitrary decoded integer into it.
`payload_size` is not represented: it always equals `payload.length`. -/
structure AiMessage where
  type : Int
  sender_id : Chars
  recipient_id : Chars
  session_id : Chars
  timestamp : Int
  payload : Chars
deriving DecidableEq, Repr

/-- Registry row, mirroring `ai_agent_t` (see the omitted-fields note above). -/
structure AiAgent where
  agent_id : Chars
  port : Int
  status : AgentStatus
  last_seen : Int
  task_queue_size : Nat
  capabilities : Chars
  current_task : Chars
deriving DecidableEq, Repr

/-- Zero-initialised `ai_agent_t` slot (calloc). -/
def defaultAgent : AiAgent :=
  { agent_id := [], port := 0, status := AgentStatus.offline, last_seen := 0,
    task_queue_size := 0, capabilities := [], current_task := [] }

/-- Session row, mirroring `task_session_t`.  `status` is a C string
(the code writes only "submitted", "processing", "completed"). -/
structure TaskSession where
  session_id : Chars
  task_description : Chars
  assigned_agent : Chars
  created : Int
  started : Int
  completed : Int
  priority : Int
  result : Chars
  status : Chars
deriving DecidableEq, Repr

/-- Zero-initialised `task_session_t` slot (calloc). -/
def defaultTask : TaskSession :=
  { session_id := [], task_description := [], assigned_agent := [],
    created := 0, started := 0, completed := 0, priority := 0,
    result := [], status := [] }

/-- Process-wide state, mirroring `distributed_ai_system_t`. -/
structure DistributedAiSystem where
  agents : List AiAgent
  local_agent_id : Chars
  active_tasks : List TaskSession
deriving DecidableEq, Repr

/-- Payload clamp used by both `create_message` (lines 126-133) and
`parse_message` (lines 242-250): lengths at or above `MAX_MESSAGE_SIZE`
(8192) are cut to 8191 so the NUL terminator still fits. -/
def truncatePayload (p : Chars) : Chars :=
  let n := if p.length ≥ 8192 then 8191 else p.length
  p.take n

/-- Embedding of `create_message` (lines 111-143).  `uuid` is the string
`uuid_unparse` would produce for the generated session id; it is used
only for task-related message types. -/
def createMessage (localId : Chars) (mtype : Int) (recipient : Option Chars)
    (payload : Chars) (uuid : Chars) (now : Int) : AiMessage :=
  { type := mtype,
    sender_id := localId.take 63,
    recipient_id := match recipient with
      | some r => r.take 63
      | none => [],
    session_id :=
      if mtype = MSG_TYPE_TASK_REQUEST ∨ mtype = MSG_TYPE_TASK_RESPONSE then uuid else [],
    timestamp := now,
    payload := truncatePayload payload }

/-! ## Codec

`send_message_to_agent` (lines 152-167) serialises the six fields into a
json-c object; `parse_message` (lines 212-254) reads them back.  The
embedding works at the level of the parsed JSON object: a decoded
datagram is `none` when `json_tokener_parse` fails, otherwise the list
of key/value pairs.  Field values are the scalar JSON types the codec
produces and inspects; the json-c stringification of nested objects and
arrays under `json_object_get_string` is not modelled (no claim
involves them). -/

inductive JsonValue where
  | null
  | int (n : Int)
  | str (s : Chars)
deriving DecidableEq, Repr

abbrev JsonObj := List (Chars × JsonValue)

/-- Lookup modelling `json_object_object_get_ex` (keys are unique in a
parsed json-c object; first match). -/
def jsonLookup (obj : JsonObj) (key : Chars) : Option JsonValue :=
  match obj with
  | [] => none
  | (k, v) :: rest => if k = key then some v else jsonLookup rest key

/-- Semantics of `json_object_get_int` on the modelled values (json-c
would also strtol-parse a numeric string; decoded messages never carry
one where the codec reads an int, and no claim depends on it). -/
def jsonGetInt : JsonValue → Int
  | JsonValue.int n => n
  | _ => 0

/-- Semantics of `json_object_get_string`: json-c returns a NULL pointer
for a JSON `null` value, and the text for a string. -/
def jsonGetString : JsonValue → Option Chars
  | JsonValue.null => none
  | JsonValue.int n => some (toString n).toList
  | JsonValue.str s => some s

/-- JSON object written by `send_message_to_agent` (lines 152-166). -/
def encodeMessage (m : AiMessage) : JsonObj :=
  [("type".toList, JsonValue.int m.type),
   ("sender".toList, JsonValue.str m.sender_id),
   ("recipient".toList, JsonValue.str m.recipient_id),
   ("session".toList, JsonValue.str m.session_id),
   ("timestamp".toList, JsonValue.int m.timestamp),
   ("payload".toList, JsonValue.str m.payload)]

/-- Outcome of `parse_message`: `-1` on tokener failure, a filled
message on success, or a crash – the C passes the NULL pointer returned
by `json_object_get_string` on a JSON `null` straight into
`strncpy`/`strlen`. -/
inductive ParseResult where
  | decodeError
  | crash
  | ok (m : AiMessage)
deriving DecidableEq, Repr

/-- Reads one string-typed field: `none` when the strncpy/strlen of a
NULL pointer would crash, `some none` when the key is absent (the field
keeps its memset default), `some (some s)` when present. -/
def parseFieldString (root : JsonObj) (key : Chars) : Option (Option Chars) :=
  match jsonLookup root key with
  | none => some none
  | some v =>
    match jsonGetString v with
    | none => none
    | some s => some (some s)

/-- Embedding of `parse_message` (lines 212-254). -/
def parseMessage (input : Option JsonObj) : ParseResult :=
  match input with
  | none => ParseResult.decodeError
  | some root =>
    let t := match jsonLookup root "type".toList with
      | some v => jsonGetInt v
      | none => 0
    let ts := match jsonLookup root "timestamp".toList with
      | some v => jsonGetInt v
      | none => 0
    match parseFieldString root "sender".toList, parseFieldString root "recipient".toList,
          parseFieldString root "session".toList, parseFieldString root "payload".toList with
    | some se, some re, some ss, some pl =>
      ParseResult.ok
        { type := t,
          sender_id := (se.getD []).take 63,
          recipient_id := (re.getD []).take 63,
          session_id := (ss.getD []).take 63,
          timestamp := ts,
          payload := truncatePayload (pl.getD []) }
    | _, _, _, _ => ParseResult.crash

/-! ## Message handling -/

/-- First registry index whose `agent_id` matches (the `strcmp` scans in
`handle_message`). -/
def findAgentIdx (agents : List AiAgent) (id : Chars) : Option Nat :=
  match agents with
  | [] => none
  | a :: rest =>
    if a.agent_id = id then some 0 else (findAgentIdx rest id).map (· + 1)

/-- First session index whose `session_id` matches (the scan at
lines 357-359). -/
def findTaskIdx (tasks : List TaskSession) (sid : Chars) : Option Nat :=
  match tasks with
  | [] => none
  | t :: rest =>
    if t.session_id = sid then some 0 else (findTaskIdx rest sid).map (· + 1)

/-- Capability payload built for the handshake response (lines 270-273,
with the hardcoded zero load/memory). -/
def discoveryResponsePayload : Chars :=
  ("capabilities=terminal,ai_commands,memory_search,file_analysis;" ++
   "status=online;load=0.0;memory=0.0").toList

/-- Embedding of `handle_message` (lines 257-400).  Returns the new
state together with every message handed to `send_message_to_agent`;
no branch of the C function sends anything, so that list is empty in
every case — the handshake and task responses are built into locals
and dropped (TODOs at lines 295 and 346). -/
def handleMessage (sys : DistributedAiSystem) (msg : AiMessage) (now : Int) :
    DistributedAiSystem × List AiMessage :=
  if msg.type = MSG_TYPE_DISCOVERY then
    -- lines 265-298: build (but never send) a handshake response, then
    -- look up or create the registry row of the sender.
    let _response := createMessage sys.local_agent_id MSG_TYPE_HANDSHAKE
      (some msg.sender_id) discoveryResponsePayload [] now
    match findAgentIdx sys.agents msg.sender_id with
    | some i =>
      let a := sys.agents.getD i defaultAgent
      let a' := { a with last_seen := now }
      ({ sys with agents := sys.agents.set i a' }, [])
    | none =>
      if sys.agents.length < 10 then
        ({ sys with agents := sys.agents ++
            [{ defaultAgent with
                agent_id := msg.sender_id.take 63,
                port := 9877 + ((sys.agents.length : Int) + 1),
                status := AgentStatus.discovering,
                last_seen := now }] }, [])
      else (sys, [])
  else if msg.type = MSG_TYPE_HANDSHAKE then
    -- lines 300-319: a known sender is marked online unconditionally.
    match findAgentIdx sys.agents msg.sender_id with
    | some i =>
      let a := sys.agents.getD i defaultAgent
      let a' := { a with status := AgentStatus.online, last_seen := now,
                         capabilities := msg.payload.take 511 }
      ({ sys with agents := sys.agents.set i a' }, [])
    | none => (sys, [])
  else if msg.type = MSG_TYPE_TASK_REQUEST then
    -- lines 321-351: execute locally (status passes through "processing"
    -- inside the critical section and ends "completed"), build (but never
    -- send) the TaskResponse.
    if sys.active_tasks.length < 100 then
      let res := ("Task processed by ".toList ++ sys.local_agent_id ++
                  ": ".toList ++ msg.payload).take 2047
      let task : TaskSession :=
        { session_id := msg.session_id.take 63,
          task_description := msg.payload.take 511,
          assigned_agent := sys.local_agent_id.take 63,
          created := msg.timestamp,
          started := now,
          completed := now,
          priority := 5,
          result := res,
          status := "completed".toList }
      let _response :=
        { createMessage sys.local_agent_id MSG_TYPE_TASK_RESPONSE
            (some msg.sender_id) res [] now with
          session_id := msg.session_id.take 63 }
      ({ sys with active_tasks := sys.active_tasks ++ [task] }, [])
    else (sys, [])
  else if msg.type = MSG_TYPE_TASK_RESPONSE then
    -- lines 353-377: the first matching session is resolved with no
    -- check of its current status.
    match findTaskIdx sys.active_tasks msg.session_id with
    | some i =>
      let t := sys.active_tasks.getD i defaultTask
      let t' := { t with result := msg.payload.take 2047, completed := now,
                         status := "completed".toList }
      ({ sys with active_tasks := sys.active_tasks.set i t' }, [])
    | none => (sys, [])
  else if msg.type = MSG_TYPE_HEARTBEAT then
    -- lines 379-392: refresh and mark online unconditionally.
    match findAgentIdx sys.agents msg.sender_id with
    | some i =>
      let a := sys.agents.getD i defaultAgent
      let a' := { a with last_seen := now, status := AgentStatus.online }
      ({ sys with agents := sys.agents.set i a' }, [])
    | none => (sys, [])
  else (sys, [])

/-- Listener dispatch (discovery_thread lines 440-445): self-sent
messages are filtered before `handle_message` runs. -/
def listenerDispatch (sys : DistributedAiSystem) (msg : AiMessage) (now : Int) :
    DistributedAiSystem × List AiMessage :=
  if msg.sender_id = sys.local_agent_id then (sys, []) else handleMessage sys msg now

/-! ## Task submission -/

/-- Result of `anbs_distributed_ai_submit_task` up to the polling phase.
`noAgents` stands for the "No available AI agents in distributed
network" failure, `queueFull` for "Task queue full"; `submitted i`
records the index of the created session row. -/
inductive SubmitResult where
  | noAgents
  | queueFull
  | submitted (idx : Nat)
deriving DecidableEq, Repr

/-- Selection scan of lines 578-586: first online agent with queue
depth < 5, thereafter replaced only by a strictly smaller depth. -/
def findBestAux (agents : List AiAgent) (i : Nat) (best : Option (Nat × Nat)) :
    Option (Nat × Nat) :=
  match agents with
  | [] => best
  | a :: rest =>
    let best' :=
      if a.status = AgentStatus.online ∧ a.task_queue_size < 5 then
        match best with
        | none => some (i, a.task_queue_size)
        | some (j, q) =>
          if a.task_queue_size < q then some (i, a.task_queue_size) else some (j, q)
      else best
    findBestAux rest (i + 1) best'

def findBestAgent (agents : List AiAgent) : Option Nat :=
  (findBestAux agents 0 none).map Prod.fst

/-- Session row written by the submit path (lines 604-613): status
"submitted", `started`/`completed`/`result` left at their zeroed slot
values; `i` is the index of the chosen agent. -/
def submittedSession (sys : DistributedAiSystem) (desc uuid : Chars) (now : Int)
    (i : Nat) : TaskSession :=
  { session_id := uuid,
    task_description := desc.take 511,
    assigned_agent := (sys.agents.getD i defaultAgent).agent_id.take 63,
    created := now,
    started := 0,
    completed := 0,
    priority := 5,
    result := [],
    status := "submitted".toList }

/-- Embedding of `anbs_distributed_ai_submit_task` (lines 570-625),
up to and including the send of the TaskRequest and the optimistic
queue-depth increment, i.e. everything before the polling loop.
`uuid` is the fresh session id `uuid_unparse` produces (36 chars). -/
def submitTask (sys : DistributedAiSystem) (desc uuid : Chars) (now : Int) :
    SubmitResult × DistributedAiSystem × List AiMessage :=
  match findBestAgent sys.agents with
  | none => (SubmitResult.noAgents, sys, [])
  | some i =>
    if sys.active_tasks.length ≥ 100 then (SubmitResult.queueFull, sys, [])
    else
      let best := sys.agents.getD i defaultAgent
      let task := submittedSession sys desc uuid now i
      let taskMsg :=
        { createMessage sys.local_agent_id MSG_TYPE_TASK_REQUEST
            (some best.agent_id) desc uuid now with
          session_id := uuid.take 63 }
      let best' := { best with task_queue_size := best.task_queue_size + 1 }
      (SubmitResult.submitted sys.active_tasks.length,
       { sys with
          active_tasks := sys.active_tasks ++ [task],
          agents := sys.agents.set i best' },
       [taskMsg])

/-- The polling loop of lines 627-642: thirty once-per-second reads of
the status string of the session; `true` when a poll observes "completed"
(the result is returned), `false` when the window is exhausted (the
"Task timeout" error is returned).  The loop only reads the session —
the timeout path writes nothing. -/
def pollForCompletion (observed : List Chars) : Bool :=
  match observed with
  | [] => false
  | s :: rest => if s = "completed".toList then true else pollForCompletion rest

/-- Number of polls performed by the submit loop (`int timeout = 30`). -/
def SUBMIT_POLL_COUNT : Nat := 30

/-! ## Coordination sweep -/

/-- Embedding of the per-agent body of the registry pass in
`coordination_thread` (lines 478-499): online agents stale for more than 30 seconds are
marked offline and skipped; the remaining online agents are sent a
heartbeat (second component: the ids of the heartbeat recipients). -/
def coordinationSweep (agents : List AiAgent) (now : Int) :
    List AiAgent × List Chars :=
  match agents with
  | [] => ([], [])
  | a :: rest =>
    let r := coordinationSweep rest now
    if a.status = AgentStatus.online then
      if now - a.last_seen > 30 then ({ a with status := AgentStatus.offline } :: r.1, r.2)
      else (a :: r.1, a.agent_id :: r.2)
    else (a :: r.1, r.2)

/-- Per-agent effect of the sweep registry pass on the agent list. -/
def staleCheck (now : Int) (a : AiAgent) : AiAgent :=
  if a.status = AgentStatus.online then
    (if now - a.last_seen > 30 then { a with status := AgentStatus.offline } else a)
  else a

/-! ## Concrete states and messages used by the claim theorems -/

/-- Online agent "A" used by the timeout scenario. -/
def c1Agent : AiAgent :=
  { defaultAgent with agent_id := "A".toList, status := AgentStatus.online, last_seen := 10 }

def c1Sys : DistributedAiSystem :=
  { agents := [c1Agent], local_agent_id := "L".toList, active_tasks := [] }

/-- TaskResponse arriving after the submit poll window has elapsed. -/
def c1LateResponse : AiMessage :=
  { type := 4, sender_id := "A".toList, recipient_id := "L".toList,
    session_id := "u1".toList, timestamp := 99, payload := "late".toList }

/-- Session that already reached the terminal Completed state. -/
def c2Task : TaskSession :=
  { session_id := "S".toList, task_description := "d".toList,
    assigned_agent := "A".toList, created := 1, started := 2, completed := 5,
    priority := 5, result := "old".toList, status := "completed".toList }

def c2Sys : DistributedAiSystem :=
  { agents := [], local_agent_id := "L".toList, active_tasks := [c2Task] }

/-- Second TaskResponse for the already-completed session. -/
def c2Late : AiMessage :=
  { type := 4, sender_id := "A".toList, recipient_id := "L".toList,
    session_id := "S".toList, timestamp := 90, payload := "new".toList }

def c3Sys : DistributedAiSystem :=
  { agents := [], local_agent_id := "L".toList, active_tasks := [] }

/-- Inbound TaskRequest from peer "A". -/
def c3Request : AiMessage :=
  { type := 3, sender_id := "A".toList, recipient_id := "L".toList,
    session_id := "S1".toList, timestamp := 10, payload := "do-x".toList }

def c4Sys : DistributedAiSystem :=
  { agents := [], local_agent_id := "L".toList, active_tasks := [] }

/-- Inbound Discovery datagram from peer "B". -/
def c4Discovery : AiMessage :=
  { type := 1, sender_id := "B".toList, recipient_id := [], session_id := [],
    timestamp := 10, payload := "caps".toList }

/-- Message whose payload has length exactly 8192 = MAX_MESSAGE_SIZE. -/
def c5BigMessage : AiMessage :=
  { type := 3, sender_id := "a".toList, recipient_id := [],
    session_id := "s".toList, timestamp := 7,
    payload := List.replicate 8192 'x' }

def c5SmallMessage : AiMessage :=
  { type := 6, sender_id := "A".toList, recipient_id := "B".toList,
    session_id := [], timestamp := 42, payload := "hello".toList }

/-- Known peer that is not Online (stale, previously demoted to offline). -/
def c6Agent : AiAgent :=
  { defaultAgent with
      agent_id := "A".toList, status := AgentStatus.offline, last_seen := 0 }

def c6Sys : DistributedAiSystem :=
  { agents := [c6Agent], local_agent_id := "L".toList, active_tasks := [] }

def c6Heartbeat : AiMessage :=
  { type := 6, sender_id := "A".toList, recipient_id := "L".toList,
    session_id := [], timestamp := 50, payload := "load=0".toList }

def c7StaleAgent : AiAgent :=
  { defaultAgent with
      agent_id := "A".toList, status := AgentStatus.online, last_seen := 0 }

def c7FreshAgent : AiAgent :=
  { defaultAgent with
      agent_id := "B".toList, status := AgentStatus.online, last_seen := 90 }

def c8Task : TaskSession :=
  { defaultTask with session_id := "T".toList, status := "submitted".toList }

/-- Full session table (100 rows) with an empty registry. -/
def c8FullSys : DistributedAiSystem :=
  { agents := [], local_agent_id := "L".toList,
    active_tasks := List.replicate 100 c8Task }

def c8Agent : AiAgent :=
  { defaultAgent with
      agent_id := "A".toList, status := AgentStatus.online, last_seen := 1 }

/-- Full session table (100 rows) with one eligible online peer. -/
def c8FullSysPeers : DistributedAiSystem :=
  { agents := [c8Agent], local_agent_id := "L".toList,
    active_tasks := List.replicate 100 c8Task }

def c10Task : TaskSession :=
  { defaultTask with session_id := "Q".toList, status := "submitted".toList }

def c10Sys : DistributedAiSystem :=
  { agents := [], local_agent_id := "L".toList, active_tasks := [c10Task] }

def c10Response : AiMessage :=
  { type := 4, sender_id := "A".toList, recipient_id := "L".toList,
    session_id := "Q".toList, timestamp := 8, payload := "res".toList }

/-- Full session table used by the frozen-at-100 part of claim C10. -/
def c10FullSys : DistributedAiSystem :=
  { agents := [], local_agent_id := "L".toList,
    active_tasks := List.replicate 100 c10Task }

/-! ## Helper lemmas (list indexing with defaults) -/

lemma getD_cons_zero {α} (a : α) (l : List α) (d : α) : (a :: l).getD 0 d = a := rfl

lemma getD_cons_succ {α} (a : α) (l : List α) (i : Nat) (d : α) :
    (a :: l).getD (i + 1) d = l.getD i d := rfl

lemma getD_append_lt {α} (l l' : List α) (i : Nat) (d : α) (h : i < l.length) :
    (l ++ l').getD i d = l.getD i d := by
  induction l generalizing i with
  | nil => simp at h
  | cons a rest ih =>
    cases i with
    | zero => rfl
    | succ j =>
      have hj : j < rest.length := by simpa using h
      simpa [getD_cons_succ] using ih j hj

lemma getD_append_length {α} (l : List α) (x : α) (d : α) :
    (l ++ [x]).getD l.length d = x := by
  induction l with
  | nil => rfl
  | cons a rest ih => exact ih

lemma getD_set_self {α} (l : List α) (i : Nat) (x : α) (d : α) (h : i < l.length) :
    (l.set i x).getD i d = x := by
  induction l generalizing i with
  | nil => simp at h
  | cons a rest ih =>
    cases i with
    | zero => rfl
    | succ j =>
      have hj : j < rest.length := by simpa using h
      simpa [List.set, getD_cons_succ] using ih j hj

lemma getD_set_ne {α} (l : List α) (i j : Nat) (x : α) (d : α) (h : j ≠ i) :
    (l.set i x).getD j d = l.getD j d := by
  induction l generalizing i j with
  | nil => rfl
  | cons a rest ih =>
    cases i with
    | zero =>
      cases j with
      | zero => exact absurd rfl h
      | succ k => rfl
    | succ i' =>
      cases j with
      | zero => rfl
      | succ k =>
        have hk : k ≠ i' := fun he => h (by rw [he])
        simpa [List.set, getD_cons_succ] using ih i' k hk

lemma getD_mem {α} (l : List α) (i : Nat) (d : α) (h : i < l.length) :
    l.getD i d ∈ l := by
  induction l generalizing i with
  | nil => simp at h
  | cons a rest ih =>
    cases i with
    | zero => exact List.mem_cons_self a rest
    | succ j =>
      have hj : j < rest.length := by simpa using h
      exact List.mem_cons_of_mem a (ih j hj)

lemma getD_of_length_le {α} (l : List α) (i : Nat) (d : α) (h : l.length ≤ i) :
    l.getD i d = d := by
  induction l generalizing i with
  | nil => rfl
  | cons a rest ih =>
    cases i with
    | zero => simp at h
    | succ j => exact ih j (by simpa using h)

lemma lt_length_of_getD_ne {α} (l : List α) (i : Nat) (d : α) (h : l.getD i d ≠ d) :
    i < l.length := by
  by_contra hge
  exact h (getD_of_length_le l i d (Nat.le_of_not_lt hge))

lemma getD_map {α β} (f : α → β) (l : List α) (i : Nat) (d : β) (d' : α)
    (h : i < l.length) : (l.map f).getD i d = f (l.getD i d') := by
  induction l generalizing i with
  | nil => simp at h
  | cons a rest ih =>
    cases i with
    | zero => rfl
    | succ j =>
      have hj : j < rest.length := by simpa using h
      simpa [getD_cons_succ] using ih j hj

lemma eq_of_nodup_map {α β} (f : α → β) (l : List α) (a b : α)
    (hnd : (l.map f).Nodup) (ha : a ∈ l) (hb : b ∈ l) (hf : f a = f b) : a = b := by
  induction l with
  | nil => simp at ha
  | cons c rest ih =>
    rw [List.map_cons, List.nodup_cons] at hnd
    obtain ⟨hnotin, hnd2⟩ := hnd
    rcases List.mem_cons.mp ha with ha' | ha' <;>
      rcases List.mem_cons.mp hb with hb' | hb'
    · rw [ha', hb']
    · exfalso
      apply hnotin
      rw [ha'] at hf
      rw [hf]
      exact List.mem_map_of_mem f hb'
    · exfalso
      apply hnotin
      rw [hb'] at hf
      rw [← hf]
      exact List.mem_map_of_mem f ha'
    · exact ih hnd2 ha' hb'

/-! ## Helper lemmas (finders and sweep) -/

lemma findAgentIdx_some_lt (l : List AiAgent) (id : Chars) (i : Nat)
    (h : findAgentIdx l id = some i) : i < l.length := by
  induction l generalizing i with
  | nil => simp [findAgentIdx] at h
  | cons a rest ih =>
    simp only [findAgentIdx] at h
    by_cases hc : a.agent_id = id
    · rw [if_pos hc] at h
      injection h with h'
      simp only [List.length_cons]
      omega
    · rw [if_neg hc] at h
      rcases hopt : findAgentIdx rest id with _ | j
      · rw [hopt] at h
        simp at h
      · rw [hopt] at h
        simp only [Option.map_some'] at h
        injection h with h'
        have hj := ih j hopt
        simp only [List.length_cons]
        omega

lemma findAgentIdx_some_id (l : List AiAgent) (id : Chars) (i : Nat) (d : AiAgent)
    (h : findAgentIdx l id = some i) : (l.getD i d).agent_id = id := by
  induction l generalizing i with
  | nil => simp [findAgentIdx] at h
  | cons a rest ih =>
    simp only [findAgentIdx] at h
    by_cases hc : a.agent_id = id
    · rw [if_pos hc] at h
      injection h with h'
      rw [← h']
      exact hc
    · rw [if_neg hc] at h
      rcases hopt : findAgentIdx rest id with _ | j
      · rw [hopt] at h
        simp at h
      · rw [hopt] at h
        simp only [Option.map_some'] at h
        injection h with h'
        rw [← h']
        exact ih j hopt

lemma findTaskIdx_some_lt (l : List TaskSession) (sid : Chars) (i : Nat)
    (h : findTaskIdx l sid = some i) : i < l.length := by
  induction l generalizing i with
  | nil => simp [findTaskIdx] at h
  | cons t rest ih =>
    simp only [findTaskIdx] at h
    by_cases hc : t.session_id = sid
    · rw [if_pos hc] at h
      injection h with h'
      simp only [List.length_cons]
      omega
    · rw [if_neg hc] at h
      rcases hopt : findTaskIdx rest sid with _ | j
      · rw [hopt] at h
        simp at h
      · rw [hopt] at h
        simp only [Option.map_some'] at h
        injection h with h'
        have hj := ih j hopt
        simp only [List.length_cons]
        omega

lemma findTaskIdx_some_id (l : List TaskSession) (sid : Chars) (i : Nat) (d : TaskSession)
    (h : findTaskIdx l sid = some i) : (l.getD i d).session_id = sid := by
  induction l generalizing i with
  | nil => simp [findTaskIdx] at h
  | cons t rest ih =>
    simp only [findTaskIdx] at h
    by_cases hc : t.session_id = sid
    · rw [if_pos hc] at h
      injection h with h'
      rw [← h']
      exact hc
    · rw [if_neg hc] at h
      rcases hopt : findTaskIdx rest sid with _ | j
      · rw [hopt] at h
        simp at h
      · rw [hopt] at h
        simp only [Option.map_some'] at h
        injection h with h'
        rw [← h']
        exact ih j hopt

lemma findTaskIdx_append_fresh (l : List TaskSession) (t : TaskSession) (sid : Chars)
    (hfresh : ∀ u ∈ l, u.session_id ≠ sid) (ht : t.session_id = sid) :
    findTaskIdx (l ++ [t]) sid = some l.length := by
  induction l with
  | nil => simp [findTaskIdx, ht]
  | cons u rest ih =>
    have hu : u.session_id ≠ sid := hfresh u (List.mem_cons_self u rest)
    simp only [List.cons_append, findTaskIdx, if_neg hu]
    have ih' := ih (fun v hv => hfresh v (List.mem_cons_of_mem u hv))
    rw [List.append_eq, ih']
    simp

lemma coordinationSweep_fst (l : List AiAgent) (now : Int) :
    (coordinationSweep l now).1 = l.map (staleCheck now) := by
  induction l with
  | nil => rfl
  | cons a rest ih =>
    simp only [coordinationSweep, List.map_cons]
    by_cases h1 : a.status = AgentStatus.online
    · by_cases h2 : now - a.last_seen > 30
      · simp [h1, h2, staleCheck, ih]
      · simp [h1, h2, staleCheck, ih]
    · simp [h1, staleCheck, ih]

lemma mem_sweep_recipients (l : List AiAgent) (now : Int) (x : Chars)
    (h : x ∈ (coordinationSweep l now).2) :
    ∃ a, a ∈ l ∧ a.agent_id = x ∧ a.status = AgentStatus.online ∧
      ¬ now - a.last_seen > 30 := by
  induction l with
  | nil => simp [coordinationSweep] at h
  | cons a rest ih =>
    simp only [coordinationSweep] at h
    by_cases h1 : a.status = AgentStatus.online
    · by_cases h2 : now - a.last_seen > 30
      · rw [if_pos h1, if_pos h2] at h
        obtain ⟨b, hb, hid, hon, hfresh⟩ := ih h
        exact ⟨b, List.mem_cons_of_mem a hb, hid, hon, hfresh⟩
      · rw [if_pos h1, if_neg h2] at h
        rcases List.mem_cons.mp h with he | hmem
        · exact ⟨a, List.mem_cons_self a rest, he.symm, h1, h2⟩
        · obtain ⟨b, hb, hid, hon, hfresh⟩ := ih hmem
          exact ⟨b, List.mem_cons_of_mem a hb, hid, hon, hfresh⟩
    · rw [if_neg h1] at h
      obtain ⟨b, hb, hid, hon, hfresh⟩ := ih h
      exact ⟨b, List.mem_cons_of_mem a hb, hid, hon, hfresh⟩

/-! ## Helper lemmas (handle_message branch equations) -/

lemma handleMessage_handshake_found (sys : DistributedAiSystem) (msg : AiMessage)
    (now : Int) (i : Nat) (h : msg.type = MSG_TYPE_HANDSHAKE)
    (hfind : findAgentIdx sys.agents msg.sender_id = some i) :
    handleMessage sys msg now =
      ({ sys with agents := sys.agents.set i (
          { sys.agents.getD i defaultAgent with
              status := AgentStatus.online, last_seen := now,
              capabilities := msg.payload.take 511 }) }, []) := by
  simp only [handleMessage, h, MSG_TYPE_DISCOVERY, MSG_TYPE_HANDSHAKE,
    MSG_TYPE_TASK_REQUEST, MSG_TYPE_TASK_RESPONSE, MSG_TYPE_HEARTBEAT]
  norm_num [hfind]

lemma handleMessage_heartbeat_found (sys : DistributedAiSystem) (msg : AiMessage)
    (now : Int) (i : Nat) (h : msg.type = MSG_TYPE_HEARTBEAT)
    (hfind : findAgentIdx sys.agents msg.sender_id = some i) :
    handleMessage sys msg now =
      ({ sys with agents := sys.agents.set i (
          { sys.agents.getD i defaultAgent with
              last_seen := now, status := AgentStatus.online }) }, []) := by
  simp only [handleMessage, h, MSG_TYPE_DISCOVERY, MSG_TYPE_HANDSHAKE,
    MSG_TYPE_TASK_REQUEST, MSG_TYPE_TASK_RESPONSE, MSG_TYPE_HEARTBEAT]
  norm_num [hfind]

lemma handleMessage_task_response_found (sys : DistributedAiSystem) (msg : AiMessage)
    (now : Int) (i : Nat) (h : msg.type = MSG_TYPE_TASK_RESPONSE)
    (hfind : findTaskIdx sys.active_tasks msg.session_id = some i) :
    handleMessage sys msg now =
      ({ sys with active_tasks := sys.active_tasks.set i (
          { sys.active_tasks.getD i defaultTask with
              result := msg.payload.take 2047, completed := now,
              status := "completed".toList }) }, []) := by
  simp only [handleMessage, h, MSG_TYPE_DISCOVERY, MSG_TYPE_HANDSHAKE,
    MSG_TYPE_TASK_REQUEST, MSG_TYPE_TASK_RESPONSE, MSG_TYPE_HEARTBEAT]
  norm_num [hfind]

lemma handleMessage_handshake_found_agents (sys : DistributedAiSystem)
    (msg : AiMessage) (now : Int) (i : Nat) (h : msg.type = MSG_TYPE_HANDSHAKE)
    (hfind : findAgentIdx sys.agents msg.sender_id = some i) :
    (handleMessage sys msg now).1.agents =
      sys.agents.set i ({ sys.agents.getD i defaultAgent with
        status := AgentStatus.online, last_seen := now,
        capabilities := msg.payload.take 511 }) := by
  rw [handleMessage_handshake_found sys msg now i h hfind]

lemma handleMessage_heartbeat_found_agents (sys : DistributedAiSystem)
    (msg : AiMessage) (now : Int) (i : Nat) (h : msg.type = MSG_TYPE_HEARTBEAT)
    (hfind : findAgentIdx sys.agents msg.sender_id = some i) :
    (handleMessage sys msg now).1.agents =
      sys.agents.set i ({ sys.agents.getD i defaultAgent with
        last_seen := now, status := AgentStatus.online }) := by
  rw [handleMessage_heartbeat_found sys msg now i h hfind]

lemma handleMessage_task_response_found_tasks (sys : DistributedAiSystem)
    (msg : AiMessage) (now : Int) (i : Nat) (h : msg.type = MSG_TYPE_TASK_RESPONSE)
    (hfind : findTaskIdx sys.active_tasks msg.session_id = some i) :
    (handleMessage sys msg now).1.active_tasks =
      sys.active_tasks.set i ({ sys.active_tasks.getD i defaultTask with
        result := msg.payload.take 2047, completed := now,
        status := "completed".toList }) := by
  rw [handleMessage_task_response_found sys msg now i h hfind]

lemma handleMessage_task_response_missing (sys : DistributedAiSystem) (msg : AiMessage)
    (now : Int) (h : msg.type = MSG_TYPE_TASK_RESPONSE)
    (hfind : findTaskIdx sys.active_tasks msg.session_id = none) :
    handleMessage sys msg now = (sys, []) := by
  simp only [handleMessage, h, MSG_TYPE_DISCOVERY, MSG_TYPE_HANDSHAKE,
    MSG_TYPE_TASK_REQUEST, MSG_TYPE_TASK_RESPONSE, MSG_TYPE_HEARTBEAT]
  norm_num [hfind]

/-! ## Claim theorems -/

/-- Claim C9 (code bug): decoding is claimed total and crash-free, but a
datagram in which the `sender` field is present with JSON type `null`
makes `parse_message` pass the NULL pointer returned by
`json_object_get_string` straight into `strncpy`: a crash.  Alongside,
the two behaviours the claim describes correctly: a malformed datagram
(tokener failure) yields the decode error, and absent fields are
defaulted to zero/empty. -/
theorem c9_null_field_crashes :
    parseMessage (some [("sender".toList, JsonValue.null)]) = ParseResult.crash ∧
    parseMessage none = ParseResult.decodeError ∧
    parseMessage (some []) = ParseResult.ok
      { type := 0, sender_id := [], recipient_id := [], session_id := [],
        timestamp := 0, payload := [] } := by
  decide

/-- Claim C4 (code bug): on an inbound Discovery from a non-local sender
the listener creates the registry row, but the Handshake response is only
built into a local and never transmitted (TODO at distributed_ai.c:295):
the set of messages handed to `send_message_to_agent` is empty. -/
theorem c4_no_handshake_sent :
    (listenerDispatch c4Sys c4Discovery 11).2 = [] ∧
    ((listenerDispatch c4Sys c4Discovery 11).1.agents.getD 0 defaultAgent).agent_id
      = "B".toList ∧
    ((listenerDispatch c4Sys c4Discovery 11).1.agents.getD 0 defaultAgent).status
      = AgentStatus.discovering := by
  decide

/-- Claim C3 (code bug): receipt of a TaskRequest creates the session and
completes it locally with the executor result, but the TaskResponse is
only built into a local and never transmitted (TODO at
distributed_ai.c:346), so the requester can never observe Completed: the
set of messages handed to `send_message_to_agent` is empty. -/
theorem c3_no_task_response_sent :
    (handleMessage c3Sys c3Request 20).2 = [] ∧
    ((handleMessage c3Sys c3Request 20).1.active_tasks.getD 0 defaultTask).status
      = "completed".toList ∧
    ((handleMessage c3Sys c3Request 20).1.active_tasks.getD 0 defaultTask).result
      = "Task processed by L: do-x".toList := by
  decide

/-- Claim C6 (counterexample): a Heartbeat from a known peer that is not
Online (here Offline) moves it to Online, although the claim allows the
transition into Online only on a Handshake for a Discovering peer. -/
theorem c6_counterexample :
    c6Agent.status ≠ AgentStatus.online ∧
    c6Heartbeat.type ≠ MSG_TYPE_HANDSHAKE ∧
    ((handleMessage c6Sys c6Heartbeat 50).1.agents.getD 0 defaultAgent).status
      = AgentStatus.online := by
  decide

/-- Claim C6 (amended): both a Handshake and a Heartbeat naming a known
peer set its status to Online and refresh `last_seen`, whatever the
previous status was; Online is entered through either message type. -/
theorem c6_amended (sys : DistributedAiSystem) (msg : AiMessage) (now : Int) (i : Nat)
    (htype : msg.type = MSG_TYPE_HANDSHAKE ∨ msg.type = MSG_TYPE_HEARTBEAT)
    (hfind : findAgentIdx sys.agents msg.sender_id = some i) :
    ((handleMessage sys msg now).1.agents.getD i defaultAgent).status
      = AgentStatus.online ∧
    ((handleMessage sys msg now).1.agents.getD i defaultAgent).last_seen = now := by
  have hlt : i < sys.agents.length := findAgentIdx_some_lt _ _ _ hfind
  rcases htype with h | h
  · rw [handleMessage_handshake_found_agents sys msg now i h hfind,
      getD_set_self _ _ _ _ hlt]
    exact ⟨rfl, rfl⟩
  · rw [handleMessage_heartbeat_found_agents sys msg now i h hfind,
      getD_set_self _ _ _ _ hlt]
    exact ⟨rfl, rfl⟩

/-- Witness for the amended claim C6 at a concrete heartbeat. -/
theorem c6_amended_witness :
    ((handleMessage c6Sys c6Heartbeat 50).1.agents.getD 0 defaultAgent).status
      = AgentStatus.online ∧
    ((handleMessage c6Sys c6Heartbeat 50).1.agents.getD 0 defaultAgent).last_seen
      = 50 :=
  c6_amended c6Sys c6Heartbeat 50 0 (Or.inr (by decide)) (by decide)

/-- Claim C2 (counterexample): a TaskResponse arriving for a session that
is already terminal (Completed) is not dropped: its result and completed
timestamp are overwritten. -/
theorem c2_counterexample :
    c2Task.status = "completed".toList ∧
    ((handleMessage c2Sys c2Late 99).1.active_tasks.getD 0 defaultTask).result
      = "new".toList ∧
    ((handleMessage c2Sys c2Late 99).1.active_tasks.getD 0 defaultTask).completed
      = 99 ∧
    c2Task.result ≠ "new".toList := by
  decide

/-- Claim C2 (amended): the TaskResponse handler copies the result,
stamps `completed` and sets the status to Completed for the first found
session with a matching id, with no check of its current status (an
already-terminal session is overwritten); only when no session matches
is the message dropped with the state unchanged. -/
theorem c2_amended (sys : DistributedAiSystem) (msg : AiMessage) (now : Int)
    (htype : msg.type = MSG_TYPE_TASK_RESPONSE) :
    (∀ i, findTaskIdx sys.active_tasks msg.session_id = some i →
      (handleMessage sys msg now).1.active_tasks.getD i defaultTask =
        { sys.active_tasks.getD i defaultTask with
            result := msg.payload.take 2047, completed := now,
            status := "completed".toList }) ∧
    (findTaskIdx sys.active_tasks msg.session_id = none →
      (handleMessage sys msg now).1 = sys) := by
  constructor
  · intro i hfind
    have hlt := findTaskIdx_some_lt _ _ _ hfind
    rw [handleMessage_task_response_found_tasks sys msg now i htype hfind,
      getD_set_self _ _ _ _ hlt]
  · intro hfind
    rw [handleMessage_task_response_missing sys msg now htype hfind]

/-- Witness for the amended claim C2 at a concrete late response. -/
theorem c2_amended_witness :
    (handleMessage c2Sys c2Late 99).1.active_tasks.getD 0 defaultTask =
      { c2Sys.active_tasks.getD 0 defaultTask with
          result := c2Late.payload.take 2047, completed := 99,
          status := "completed".toList } :=
  (c2_amended c2Sys c2Late 99 (by decide)).1 0 (by decide)

/-- Claim C5 (amended): a wire message round-trips through encode and
decode in all six fields whenever its id fields fit their 64-byte struct
buffers (length at most 63) and its payload length is at most 8191 -
strictly below MAX_MESSAGE_SIZE = 8192, which is where the decoder clamp
cuts; the claimed bound of 8192 itself does not round-trip. -/
theorem c5_roundtrip (m : AiMessage)
    (hs : m.sender_id.length ≤ 63) (hr : m.recipient_id.length ≤ 63)
    (hsid : m.session_id.length ≤ 63) (hp : m.payload.length ≤ 8191) :
    parseMessage (some (encodeMessage m)) = ParseResult.ok m := by
  have hstep : parseMessage (some (encodeMessage m)) =
      ParseResult.ok
        { type := m.type,
          sender_id := m.sender_id.take 63,
          recipient_id := m.recipient_id.take 63,
          session_id := m.session_id.take 63,
          timestamp := m.timestamp,
          payload := truncatePayload m.payload } := rfl
  have hpay : truncatePayload m.payload = m.payload := by
    simp only [truncatePayload]
    rw [if_neg (by omega)]
    exact List.take_length m.payload
  rw [hstep, List.take_of_length_le hs, List.take_of_length_le hr,
    List.take_of_length_le hsid, hpay]

/-- Witness for the amended claim C5 at a concrete small message. -/
theorem c5_roundtrip_witness :
    parseMessage (some (encodeMessage c5SmallMessage)) =
      ParseResult.ok c5SmallMessage :=
  c5_roundtrip c5SmallMessage (by decide) (by decide) (by decide) (by decide)

/-- Claim C5 (counterexample): a message whose payload length is exactly
8192 - allowed by the claimed bound "at most 8192" - does not round-trip:
the decoder clamps the payload to 8191 characters. -/
theorem c5_counterexample :
    c5BigMessage.payload.length ≤ 8192 ∧
    parseMessage (some (encodeMessage c5BigMessage)) ≠ ParseResult.ok c5BigMessage := by
  constructor
  · have hpay : c5BigMessage.payload = List.replicate 8192 'x' := rfl
    rw [hpay, List.length_replicate]
  · intro h
    have hstep : parseMessage (some (encodeMessage c5BigMessage)) =
        ParseResult.ok
          { type := 3, sender_id := "a".toList.take 63, recipient_id := [],
            session_id := "s".toList.take 63, timestamp := 7,
            payload := truncatePayload (List.replicate 8192 'x') } := rfl
    have h4 : truncatePayload (List.replicate 8192 'x') = List.replicate 8191 'x' := by
      simp only [truncatePayload]
      rw [if_pos (by rw [List.length_replicate]), List.take_replicate]
      congr 1
    rw [hstep, h4] at h
    injection h with h2
    have h5 := congrArg (fun mm => mm.payload.length) h2
    simp only [c5BigMessage, List.length_replicate] at h5
    omega

/-- Claim C7 (confirmed): when the periodic sweep runs, every Online
peer whose `last_seen` lies more than 30 seconds in the past is set
Offline by that sweep, and no Heartbeat is sent to it (its id is not
among the heartbeat recipients); the registry invariant that ids are
unique keys is assumed. -/
theorem c7_stale_sweep (agents : List AiAgent) (now : Int) (i : Nat)
    (hnodup : (agents.map (fun a => a.agent_id)).Nodup)
    (hon : (agents.getD i defaultAgent).status = AgentStatus.online)
    (hstale : now - (agents.getD i defaultAgent).last_seen > 30) :
    ((coordinationSweep agents now).1.getD i defaultAgent).status
      = AgentStatus.offline ∧
    (agents.getD i defaultAgent).agent_id ∉ (coordinationSweep agents now).2 := by
  have hne : agents.getD i defaultAgent ≠ defaultAgent := by
    intro he
    rw [he] at hon
    simp [defaultAgent] at hon
  have hlt : i < agents.length := lt_length_of_getD_ne _ _ _ hne
  constructor
  · rw [coordinationSweep_fst,
      getD_map (staleCheck now) agents i defaultAgent defaultAgent hlt]
    simp only [staleCheck]
    rw [if_pos hon, if_pos hstale]
  · intro hmem
    obtain ⟨b, hb, hid, _, hfresh⟩ := mem_sweep_recipients agents now _ hmem
    have hbeq : b = agents.getD i defaultAgent :=
      eq_of_nodup_map (fun a => a.agent_id) agents b _ hnodup hb
        (getD_mem _ _ _ hlt) hid
    rw [hbeq] at hfresh
    exact hfresh hstale

/-- Witness for claim C7: a two-agent registry where "A" is stale. -/
theorem c7_stale_sweep_witness :
    ((coordinationSweep [c7StaleAgent, c7FreshAgent] 100).1.getD 0 defaultAgent).status
      = AgentStatus.offline ∧
    ([c7StaleAgent, c7FreshAgent].getD 0 defaultAgent).agent_id
      ∉ (coordinationSweep [c7StaleAgent, c7FreshAgent] 100).2 :=
  c7_stale_sweep [c7StaleAgent, c7FreshAgent] 100 0 (by decide) (by decide) (by decide)

/-- Claim C8 (counterexample): with the session table full but no
eligible peer in the registry, submit fails with the no-peer error, not
the capacity error - the peer scan precedes the capacity check. -/
theorem c8_counterexample :
    c8FullSys.active_tasks.length = 100 ∧
    submitTask c8FullSys "d".toList "u".toList 5 =
      (SubmitResult.noAgents, c8FullSys, []) ∧
    SubmitResult.noAgents ≠ SubmitResult.queueFull := by
  refine ⟨by simp [c8FullSys], rfl, by decide⟩

/-- Claim C8 (amended): when the session table holds its full 100 rows
and an eligible peer exists (so the submit path reaches the capacity
check), submit returns the capacity error and leaves the whole state
unchanged - no session row, no task-count change, no queue-depth
increment - and sends nothing. -/
theorem c8_amended (sys : DistributedAiSystem) (desc uuid : Chars) (now : Int)
    (i : Nat) (hbest : findBestAgent sys.agents = some i)
    (hfull : sys.active_tasks.length ≥ 100) :
    submitTask sys desc uuid now = (SubmitResult.queueFull, sys, []) := by
  simp only [submitTask, hbest]
  rw [if_pos hfull]

/-- Witness for the amended claim C8: full table plus one online peer. -/
theorem c8_amended_witness :
    submitTask c8FullSysPeers "d".toList "u".toList 5 =
      (SubmitResult.queueFull, c8FullSysPeers, []) :=
  c8_amended c8FullSysPeers "d".toList "u".toList 5 0 (by decide)
    (by simp [c8FullSysPeers])

lemma submitTask_success (sys : DistributedAiSystem) (desc uuid : Chars) (now : Int)
    (i : Nat) (hbest : findBestAgent sys.agents = some i)
    (hcap : ¬ sys.active_tasks.length ≥ 100) :
    submitTask sys desc uuid now =
      (SubmitResult.submitted sys.active_tasks.length,
       { sys with
          active_tasks := sys.active_tasks ++ [submittedSession sys desc uuid now i],
          agents := sys.agents.set i ({ sys.agents.getD i defaultAgent with
            task_queue_size := (sys.agents.getD i defaultAgent).task_queue_size + 1 }) },
       [{ createMessage sys.local_agent_id MSG_TYPE_TASK_REQUEST
            (some (sys.agents.getD i defaultAgent).agent_id) desc uuid now with
          session_id := uuid.take 63 }]) := by
  simp only [submitTask, hbest]
  rw [if_neg hcap]

lemma handleMessage_tasks_cases (sys : DistributedAiSystem) (msg : AiMessage)
    (now : Int) :
    (handleMessage sys msg now).1.active_tasks = sys.active_tasks ∨
    (∃ t, (handleMessage sys msg now).1.active_tasks = sys.active_tasks ++ [t]) ∨
    (∃ i t, i < sys.active_tasks.length ∧
      t.session_id = (sys.active_tasks.getD i defaultTask).session_id ∧
      (handleMessage sys msg now).1.active_tasks = sys.active_tasks.set i t) := by
  by_cases h1 : msg.type = MSG_TYPE_DISCOVERY
  · left
    simp only [handleMessage, if_pos h1]
    cases hf : findAgentIdx sys.agents msg.sender_id with
    | some j => rfl
    | none =>
      by_cases hlen : sys.agents.length < 10
      · rw [if_pos hlen]
      · rw [if_neg hlen]
  · by_cases h2 : msg.type = MSG_TYPE_HANDSHAKE
    · left
      simp only [handleMessage, if_neg h1, if_pos h2]
      cases hf : findAgentIdx sys.agents msg.sender_id with
      | some j => rfl
      | none => rfl
    · by_cases h3 : msg.type = MSG_TYPE_TASK_REQUEST
      · simp only [handleMessage, if_neg h1, if_neg h2, if_pos h3]
        by_cases hlen : sys.active_tasks.length < 100
        · right; left
          rw [if_pos hlen]
          exact ⟨_, rfl⟩
        · left
          rw [if_neg hlen]
      · by_cases h4 : msg.type = MSG_TYPE_TASK_RESPONSE
        · simp only [handleMessage, if_neg h1, if_neg h2, if_neg h3, if_pos h4]
          cases hf : findTaskIdx sys.active_tasks msg.session_id with
          | some j =>
            right; right
            exact ⟨j, { sys.active_tasks.getD j defaultTask with
                result := msg.payload.take 2047, completed := now,
                status := "completed".toList },
              findTaskIdx_some_lt _ _ _ hf, rfl, rfl⟩
          | none => left; rfl
        · by_cases h5 : msg.type = MSG_TYPE_HEARTBEAT
          · left
            simp only [handleMessage, if_neg h1, if_neg h2, if_neg h3, if_neg h4,
              if_pos h5]
            cases hf : findAgentIdx sys.agents msg.sender_id with
            | some j => rfl
            | none => rfl
          · left
            simp only [handleMessage, if_neg h1, if_neg h2, if_neg h3, if_neg h4,
              if_neg h5]

/-- Claim C1 (counterexample): a concrete submitted session for which no
TaskResponse arrives.  All thirty polls observe "submitted" and the loop
falls through to the timeout error, but the session status is still
"submitted" - it was never set to any timed-out marker (the code has no
such status value) - and a late TaskResponse afterwards re-resolves the
very same session to Completed, contradicting the claimed exactly-once
terminal transition. -/
theorem c1_counterexample :
    ((submitTask c1Sys "work".toList "u1".toList 50).2.1.active_tasks.getD 0
        defaultTask).status = "submitted".toList ∧
    pollForCompletion (List.replicate 30 ("submitted".toList)) = false ∧
    ((handleMessage (submitTask c1Sys "work".toList "u1".toList 50).2.1
        c1LateResponse 99).1.active_tasks.getD 0 defaultTask).status
      = "completed".toList ∧
    "submitted".toList ≠ "completed".toList := by
  decide

/-- Claim C1 (amended): when no TaskResponse ever arrives for a
submitted session, every one of the thirty once-per-second polls
observes the unresolved status and submit returns the timeout error
after the window; however the timeout path writes nothing to the
session - its status remains Submitted, it is never marked TimedOut -
and a TaskResponse arriving later still marks that session Completed. -/
theorem c1_amended (sys : DistributedAiSystem) (desc uuid : Chars) (now later : Int)
    (resp : AiMessage) (i : Nat)
    (hbest : findBestAgent sys.agents = some i)
    (hcap : ¬ sys.active_tasks.length ≥ 100)
    (hfresh : ∀ u ∈ sys.active_tasks, u.session_id ≠ uuid)
    (hresp : resp.type = MSG_TYPE_TASK_RESPONSE)
    (hsid : resp.session_id = uuid) :
    (submitTask sys desc uuid now).1 = SubmitResult.submitted sys.active_tasks.length ∧
    ((submitTask sys desc uuid now).2.1.active_tasks.getD sys.active_tasks.length
        defaultTask).status = "submitted".toList ∧
    pollForCompletion (List.replicate SUBMIT_POLL_COUNT ("submitted".toList)) = false ∧
    ((handleMessage (submitTask sys desc uuid now).2.1 resp later).1.active_tasks.getD
        sys.active_tasks.length defaultTask).status = "completed".toList := by
  have htasks : (submitTask sys desc uuid now).2.1.active_tasks
      = sys.active_tasks ++ [submittedSession sys desc uuid now i] := by
    rw [submitTask_success sys desc uuid now i hbest hcap]
  have hres : (submitTask sys desc uuid now).1
      = SubmitResult.submitted sys.active_tasks.length := by
    rw [submitTask_success sys desc uuid now i hbest hcap]
  refine ⟨hres, ?_, by decide, ?_⟩
  · rw [htasks, getD_append_length]
    rfl
  · have hfind : findTaskIdx (submitTask sys desc uuid now).2.1.active_tasks
        resp.session_id = some sys.active_tasks.length := by
      rw [htasks, hsid]
      exact findTaskIdx_append_fresh sys.active_tasks _ uuid hfresh rfl
    rw [handleMessage_task_response_found_tasks _ resp later _ hresp hfind]
    have hlen : sys.active_tasks.length
        < (submitTask sys desc uuid now).2.1.active_tasks.length := by
      rw [htasks, List.length_append]
      simp
    rw [getD_set_self _ _ _ _ hlen]

/-- Witness for the amended claim C1 at the concrete one-peer state. -/
theorem c1_amended_witness :
    (submitTask c1Sys "work".toList "u1".toList 50).1 = SubmitResult.submitted 0 ∧
    ((submitTask c1Sys "work".toList "u1".toList 50).2.1.active_tasks.getD 0
        defaultTask).status = "submitted".toList ∧
    pollForCompletion (List.replicate SUBMIT_POLL_COUNT ("submitted".toList)) = false ∧
    ((handleMessage (submitTask c1Sys "work".toList "u1".toList 50).2.1
        c1LateResponse 99).1.active_tasks.getD 0 defaultTask).status
      = "completed".toList :=
  c1_amended c1Sys "work".toList "u1".toList 50 99 c1LateResponse 0
    (by decide) (by decide) (by decide) (by decide) (by decide)

/-- Claim C10 (counterexample): with 100 sessions ever created but no
eligible peer, a subsequent submission fails - yet with the no-peer
error, not the capacity error the claim names, because the peer scan
precedes the capacity check. -/
theorem c10_counterexample :
    c10FullSys.active_tasks.length = 100 ∧
    submitTask c10FullSys "d".toList "u".toList 9 =
      (SubmitResult.noAgents, c10FullSys, []) ∧
    SubmitResult.noAgents ≠ SubmitResult.queueFull := by
  refine ⟨?_, rfl, by decide⟩
  rw [show c10FullSys.active_tasks = List.replicate 100 c10Task from rfl,
    List.length_replicate]

/-- Claim C10 (amended): no operation removes or reuses a session row -
the task count is monotonically non-decreasing under message handling
(TaskRequest and TaskResponse receipt included) and under submit, and
each existing row keeps its session id; consequently once 100 sessions
have ever been created every subsequent submission leaves the state
unchanged and fails, with the capacity error when an eligible peer
exists and with the no-peer error otherwise. -/
theorem c10_amended :
    (∀ sys msg now,
        sys.active_tasks.length ≤ (handleMessage sys msg now).1.active_tasks.length ∧
        ∀ j, j < sys.active_tasks.length →
          ((handleMessage sys msg now).1.active_tasks.getD j defaultTask).session_id =
            (sys.active_tasks.getD j defaultTask).session_id) ∧
    (∀ sys desc uuid now,
        sys.active_tasks.length ≤ (submitTask sys desc uuid now).2.1.active_tasks.length ∧
        ∀ j, j < sys.active_tasks.length →
          ((submitTask sys desc uuid now).2.1.active_tasks.getD j defaultTask).session_id =
            (sys.active_tasks.getD j defaultTask).session_id) ∧
    (∀ sys desc uuid now, sys.active_tasks.length = 100 →
        (submitTask sys desc uuid now).2.1 = sys ∧
        ((submitTask sys desc uuid now).1 = SubmitResult.noAgents ∨
         (submitTask sys desc uuid now).1 = SubmitResult.queueFull)) := by
  refine ⟨?_, ?_, ?_⟩
  · intro sys msg now
    rcases handleMessage_tasks_cases sys msg now with hc | ⟨t, hc⟩ | ⟨i0, t, hi0, hsid0, hc⟩
    · rw [hc]
      exact ⟨le_refl _, fun j hj => rfl⟩
    · rw [hc]
      constructor
      · rw [List.length_append]
        simp
      · intro j hj
        rw [getD_append_lt _ _ _ _ hj]
    · rw [hc]
      constructor
      · rw [List.length_set]
      · intro j hj
        by_cases hji : j = i0
        · subst hji
          rw [getD_set_self _ _ _ _ hi0, hsid0]
        · rw [getD_set_ne _ _ _ _ _ hji]
  · intro sys desc uuid now
    cases hb : findBestAgent sys.agents with
    | none =>
      have he : submitTask sys desc uuid now = (SubmitResult.noAgents, sys, []) := by
        simp only [submitTask, hb]
      rw [he]
      exact ⟨le_refl _, fun j hj => rfl⟩
    | some i =>
      by_cases hcap : sys.active_tasks.length ≥ 100
      · have he : submitTask sys desc uuid now = (SubmitResult.queueFull, sys, []) := by
          simp only [submitTask, hb]
          rw [if_pos hcap]
        rw [he]
        exact ⟨le_refl _, fun j hj => rfl⟩
      · rw [submitTask_success sys desc uuid now i hb hcap]
        constructor
        · show sys.active_tasks.length
            ≤ (sys.active_tasks ++ [submittedSession sys desc uuid now i]).length
          rw [List.length_append]
          simp
        · intro j hj
          show ((sys.active_tasks ++ [submittedSession sys desc uuid now i]).getD j
              defaultTask).session_id = (sys.active_tasks.getD j defaultTask).session_id
          rw [getD_append_lt _ _ _ _ hj]
  · intro sys desc uuid now hfull
    cases hb : findBestAgent sys.agents with
    | none =>
      have he : submitTask sys desc uuid now = (SubmitResult.noAgents, sys, []) := by
        simp only [submitTask, hb]
      rw [he]
      exact ⟨rfl, Or.inl rfl⟩
    | some i =>
      have he : submitTask sys desc uuid now = (SubmitResult.queueFull, sys, []) := by
        simp only [submitTask, hb]
        rw [if_pos (by omega)]
      rw [he]
      exact ⟨rfl, Or.inr rfl⟩

/-- Witness for the amended claim C10: row ids survive a TaskResponse,
and a submit against a full table leaves the state unchanged. -/
theorem c10_amended_witness :
    ((handleMessage c10Sys c10Response 8).1.active_tasks.getD 0 defaultTask).session_id
      = (c10Sys.active_tasks.getD 0 defaultTask).session_id ∧
    (submitTask c10FullSys "d".toList "u".toList 9).2.1 = c10FullSys :=
  ⟨(c10_amended.1 c10Sys c10Response 8).2 0 (by decide),
   ((c10_amended.2.2 c10FullSys "d".toList "u".toList 9
      (by rw [show c10FullSys.active_tasks = List.replicate 100 c10Task from rfl,
          List.length_replicate])).1)⟩
